import Mathlib

/-!
Shallow embedding of the QIOE (Quantum-Inspired Optimization Engine) front-end:
the data model (types.ts), the external-service wrapper (`runOptimization`),
the scenario catalog (data/scenarios.ts), the session-state transitions of the
App component (scenario switch, optimize request, playback tick, play toggle,
skip to end), and the derived statistics of the Metrics component
(route distance, current frame, convergence step).

JavaScript numbers are modelled as rationals (ℚ); `Math.sqrt` forces the
route-distance values into ℝ via `Real.sqrt`.  Effects are made explicit:
`Math.random` coordinate draws become oracle arguments, the asynchronous
external call becomes a `ServiceReply` argument together with a collaborator
call count, and each `setState` updater becomes a pure function on `AppState`.
-/

namespace QIOE

/-- Node record from types.ts: integer id, planar coordinates, optional label. -/
structure Node where
  id : Int
  x : ℚ
  y : ℚ
  label : Option String := none
deriving Repr, DecidableEq

/-- Optimization parameters from types.ts. -/
structure OptimizationParams where
  steps : ℚ
  init_temp : ℚ
  tunneling_rate : ℚ
deriving Repr, DecidableEq

/-- One sampled iteration frame from types.ts. -/
structure IterationData where
  step : Int
  current_route : List Int
  current_energy : ℚ
  best_route : List Int
  best_energy : ℚ
  tunneling : Bool
deriving Repr, DecidableEq

/-- Final summary record from types.ts. -/
structure FinalResult where
  best_route : List Int
  best_energy : ℚ
  total_iterations : Int
  tunneling_events : Int
deriving Repr, DecidableEq

/-- Run summary record from types.ts. -/
structure OptimizationSummary where
  problem_type : String
  total_nodes : Int
  parameters_used : OptimizationParams
deriving Repr, DecidableEq

/-- Whole response of the external service, from types.ts. -/
structure OptimizationResponse where
  summary : OptimizationSummary
  iterations : List IterationData
  final_result : FinalResult
  explanation : String
deriving Repr, DecidableEq

/-- The five scenario identifiers of the catalog. -/
inductive ScenarioType where
  | random
  | logistics
  | circuit
  | delivery
  | india
deriving Repr, DecidableEq

/-- Session state of the App component (AppState in types.ts, including the
`executionTime` field used by the current App variant). `playbackIndex` is an
integer because the code stores the sentinel -1 for "not started". -/
structure AppState where
  nodes : List Node
  params : OptimizationParams
  result : Option OptimizationResponse
  isOptimizing : Bool
  playbackIndex : Int
  isPlaying : Bool
  error : Option String
  scenario : ScenarioType
  startNodeId : Int
  executionTime : ℚ
deriving Repr, DecidableEq

/-! ## External optimization call (geminiService)

`runOptimization` first checks the credential; only after that does it build
the client and issue exactly one `generateContent` call.  The outcome of that
single call is modelled by `ServiceReply`: the call may throw
(`failure`), deliver a falsy `response.text` (`noText`), deliver text that
`JSON.parse` rejects (`unparseable`), or deliver text that parses to an
`OptimizationResponse` (`parsed`).  The embedding returns the `Except` result
together with the number of collaborator invocations performed. -/

/-- Outcome of the single external `generateContent` exchange. -/
inductive ServiceReply where
  | failure (msg : String)
  | noText
  | unparseable (msg : String)
  | parsed (r : OptimizationResponse)
deriving Repr

/-- The `runOptimization` service function.  Faithful to the source: a missing
API key throws before the client is constructed (zero collaborator calls);
otherwise one call is made and its text is parsed with no validation of the
parsed payload (in particular no check on `iterations`). -/
def runOptimization (apiKey : Option String) (reply : ServiceReply) :
    Except String OptimizationResponse × Nat :=
  match apiKey with
  | none => (Except.error "API Key is missing. Please set REACT_APP_GEMINI_API_KEY.", 0)
  | some _ =>
    match reply with
    | ServiceReply.failure msg => (Except.error msg, 1)
    | ServiceReply.noText => (Except.error "No response from optimization engine.", 1)
    | ServiceReply.unparseable msg => (Except.error msg, 1)
    | ServiceReply.parsed r => (Except.ok r, 1)

/-! ## Scenario catalog (data/scenarios.ts) -/

/-- Fixed node list of the `india` scenario. -/
def indiaNodes : List Node :=
  [ { id := 0, x := 30, y := 5, label := some "Srinagar" },
    { id := 1, x := 32, y := 25, label := some "Delhi" },
    { id := 2, x := 25, y := 30, label := some "Jaipur" },
    { id := 3, x := 45, y := 30, label := some "Lucknow" },
    { id := 4, x := 55, y := 32, label := some "Patna" },
    { id := 5, x := 85, y := 30, label := some "Guwahati" },
    { id := 6, x := 70, y := 45, label := some "Kolkata" },
    { id := 7, x := 65, y := 55, label := some "Bhubaneswar" },
    { id := 8, x := 10, y := 40, label := some "Ahmedabad" },
    { id := 9, x := 12, y := 60, label := some "Mumbai" },
    { id := 10, x := 18, y := 65, label := some "Pune" },
    { id := 11, x := 40, y := 50, label := some "Nagpur" },
    { id := 12, x := 40, y := 70, label := some "Hyderabad" },
    { id := 13, x := 35, y := 85, label := some "Bangalore" },
    { id := 14, x := 45, y := 85, label := some "Chennai" },
    { id := 15, x := 32, y := 95, label := some "Thiruvananthapuram" } ]

/-- Fixed node list of the `logistics` scenario. -/
def logisticsNodes : List Node :=
  [ { id := 0, x := 10, y := 15, label := some "Seattle" },
    { id := 1, x := 10, y := 75, label := some "Los Angeles" },
    { id := 2, x := 15, y := 25, label := some "Boise" },
    { id := 3, x := 25, y := 65, label := some "Phoenix" },
    { id := 4, x := 35, y := 25, label := some "Denver" },
    { id := 5, x := 45, y := 60, label := some "Dallas" },
    { id := 6, x := 50, y := 40, label := some "Kansas City" },
    { id := 7, x := 55, y := 20, label := some "Chicago" },
    { id := 8, x := 60, y := 70, label := some "New Orleans" },
    { id := 9, x := 75, y := 50, label := some "Atlanta" },
    { id := 10, x := 80, y := 30, label := some "D.C." },
    { id := 11, x := 85, y := 15, label := some "New York" },
    { id := 12, x := 90, y := 20, label := some "Boston" },
    { id := 13, x := 85, y := 85, label := some "Miami" } ]

/-- Fixed node list of the `circuit` scenario (no labels). -/
def circuitNodes : List Node :=
  [ { id := 0, x := 40, y := 40 }, { id := 1, x := 42, y := 40 },
    { id := 2, x := 40, y := 42 }, { id := 3, x := 42, y := 42 },
    { id := 4, x := 60, y := 40 }, { id := 5, x := 62, y := 40 },
    { id := 6, x := 60, y := 42 }, { id := 7, x := 62, y := 42 },
    { id := 8, x := 10, y := 10 }, { id := 9, x := 10, y := 90 },
    { id := 10, x := 90, y := 10 }, { id := 11, x := 90, y := 90 },
    { id := 12, x := 20, y := 50 }, { id := 13, x := 30, y := 50 },
    { id := 14, x := 70, y := 50 }, { id := 15, x := 80, y := 50 } ]

/-- Node list of the `delivery` scenario: 20 houses on a 5x4 grid with a random
jitter on each coordinate; the two `Math.random()*5 - 2.5` draws of node `i`
are supplied by the oracle `jitter i`. -/
def deliveryNodes (jitter : Nat → ℚ × ℚ) : List Node :=
  (List.range 20).map (fun (i : Nat) =>
    { id := (i : Int),
      x := (i % 5 : Nat) * 20 + 10 + (jitter i).1,
      y := (i / 5 : Nat) * 20 + 10 + (jitter i).2,
      label := some ("House " ++ toString (i + 1)) })

/-- Random node generation of the App component: ids 0..count-1, with the two
`Math.floor(Math.random()*90)+5` coordinate draws of node `i` supplied by the
oracle `coords i`. -/
def generateNodes (count : Nat) (coords : Nat → ℚ × ℚ) : List Node :=
  (List.range count).map (fun (i : Nat) =>
    { id := (i : Int), x := (coords i).1, y := (coords i).2 })

/-- The node set produced for a scenario: the catalog's fixed list when
`fixedNodes` is set, a fresh random layout otherwise. -/
def scenarioNodes (s : ScenarioType) (nodeCount : Nat)
    (coords jitter : Nat → ℚ × ℚ) : List Node :=
  match s with
  | ScenarioType.random => generateNodes nodeCount coords
  | ScenarioType.logistics => logisticsNodes
  | ScenarioType.circuit => circuitNodes
  | ScenarioType.delivery => deliveryNodes jitter
  | ScenarioType.india => indiaNodes

/-! ## App component state transitions

Each `setState` updater of the current App variant becomes a pure function
`AppState → AppState`. -/

/-- The scenario-switch effect: rebuild the node set (fixed list or fresh
random layout), clear any prior result and playback cursor, stop playing and
reset the selected start node to id 0. -/
def scenarioSwitch (st : AppState) (nodeCount : Nat)
    (coords jitter : Nat → ℚ × ℚ) : AppState :=
  { st with
    nodes := scenarioNodes st.scenario nodeCount coords jitter,
    result := none,
    playbackIndex := -1,
    isPlaying := false,
    startNodeId := 0,
    executionTime := 0 }

/-- First update of `handleOptimize`: mark the request in flight and clear the
error, the previous result, the playback cursor and the timing. -/
def optimizeStart (st : AppState) : AppState :=
  { st with
    isOptimizing := true,
    error := none,
    result := none,
    playbackIndex := -1,
    executionTime := 0 }

/-- Success update of `handleOptimize`: install the response, reset the cursor
to 0 and auto-play. -/
def optimizeSuccess (st : AppState) (r : OptimizationResponse) (elapsed : ℚ) :
    AppState :=
  { st with
    result := some r,
    isOptimizing := false,
    playbackIndex := 0,
    isPlaying := true,
    executionTime := elapsed }

/-- Catch branch of `handleOptimize`: record the error message and clear the
in-flight flag; no other field is touched. -/
def optimizeFailure (st : AppState) (msg : String) : AppState :=
  { st with
    isOptimizing := false,
    error := some msg }

/-- One firing of the 2000 ms playback interval: with a result present, either
stop at the last frame or advance the cursor by one. -/
def tick (st : AppState) : AppState :=
  match st.result with
  | none => st
  | some r =>
    if st.playbackIndex ≥ (r.iterations.length : Int) - 1 then
      { st with isPlaying := false }
    else
      { st with playbackIndex := st.playbackIndex + 1 }

/-- The play/pause button updater: clicked at the end it restarts playback
from frame 0, otherwise it toggles the play flag. -/
def playToggle (st : AppState) : AppState :=
  match st.result with
  | some r =>
    if st.playbackIndex ≥ (r.iterations.length : Int) - 1 then
      { st with playbackIndex := 0, isPlaying := true }
    else
      { st with isPlaying := !st.isPlaying }
  | none => { st with isPlaying := !st.isPlaying }

/-- The skip-forward button updater: jump to the last frame and pause.
(The button is rendered only when a result is present.) -/
def skipToEnd (st : AppState) (r : OptimizationResponse) : AppState :=
  { st with playbackIndex := (r.iterations.length : Int) - 1, isPlaying := false }

/-! ## Metrics component: derived statistics -/

/-- Euclidean distance between two nodes (`Math.sqrt` of the sum of squared
coordinate differences), as computed inline in Metrics and in the service's
distance-matrix builder. -/
noncomputable def calculateDistance (n1 n2 : Node) : ℝ :=
  Real.sqrt ((((n1.x - n2.x) ^ 2 + (n1.y - n2.y) ^ 2 : ℚ)) : ℝ)

/-- One term of the `reduce` inside `calculateRouteDistance`: the leg from
`routeIds[i]` to `routeIds[(i+1) % routeIds.length]`, contributing the node
distance when both endpoint lookups succeed and 0 otherwise. -/
noncomputable def legDistance (nodes : List Node) (routeIds : List Int) (i : Nat) : ℝ :=
  match nodes.find? (fun n => n.id == routeIds.getD i 0),
        nodes.find? (fun n => n.id == routeIds.getD ((i + 1) % routeIds.length) 0) with
  | some n1, some n2 => calculateDistance n1 n2
  | _, _ => 0

/-- `calculateRouteDistance` of Metrics: 0 when the route has fewer than two
entries or the node set is empty, otherwise the indexed `reduce` summing each
wrapping leg of the route. -/
noncomputable def calculateRouteDistance (nodes : List Node) (routeIds : List Int) : ℝ :=
  if routeIds.length < 2 ∨ nodes = [] then 0
  else ∑ i ∈ Finset.range routeIds.length, legDistance nodes routeIds i

/-- The unguarded frame access `data.iterations[currentStepIndex]` of the
Metrics derivation, made total: `none` exactly when the index is out of
bounds (JavaScript's `undefined`). -/
def metricsCurrentFrame (data : OptimizationResponse) (currentStepIndex : Int) :
    Option IterationData :=
  if currentStepIndex < 0 then none
  else data.iterations.get? currentStepIndex.toNat

/-- The convergence-step derivation of Metrics: the step of the first frame
whose `best_energy` is within 0.001 of `final_result.best_energy`, else the
step of the last frame (whose unguarded access is made total with `getLast?`). -/
def metricsConvergenceStep (data : OptimizationResponse) : Option Int :=
  match data.iterations.find?
      (fun it => |it.best_energy - data.final_result.best_energy| < (1 / 1000 : ℚ)) with
  | some it => some it.step
  | none => data.iterations.getLast?.map IterationData.step

/-- One wrapping leg given as an explicit pair of endpoint ids: the node
distance when both lookups succeed, 0 otherwise.  Used by the amended
reading of the route-distance contract. -/
noncomputable def pairLegDistance (nodes : List Node) (p : Int × Int) : ℝ :=
  match nodes.find? (fun n => n.id == p.1), nodes.find? (fun n => n.id == p.2) with
  | some n1, some n2 => calculateDistance n1 n2
  | _, _ => 0

/-- Amended route-distance contract, written from the amended claim's words:
0 when the route has fewer than two entries or the node set is empty;
otherwise the sum, over the closed-tour legs (each route entry paired with its
cyclic successor, last wrapping to first), of the leg distance — where a leg
whose endpoint lookup fails contributes 0 and is silently skipped while the
remaining legs still contribute. -/
noncomputable def routeDistanceAmended (nodes : List Node) (routeIds : List Int) : ℝ :=
  if routeIds.length < 2 ∨ nodes = [] then 0
  else ((routeIds.zip (routeIds.rotate 1)).map (pairLegDistance nodes)).sum

/-! ## Concrete sample data used by counterexamples and witnesses -/

/-- Default parameter values of the App component's initial state. -/
def sampleParams : OptimizationParams :=
  { steps := 5000, init_temp := 50, tunneling_rate := 1 / 4 }

/-- Three concrete nodes with ids 0, 1, 2. -/
def sampleNodes : List Node :=
  [ { id := 0, x := 0, y := 0 },
    { id := 1, x := 10, y := 0 },
    { id := 2, x := 10, y := 10 } ]

/-- A concrete three-frame iteration log with non-decreasing steps. -/
def sampleIterations : List IterationData :=
  [ { step := 0, current_route := [0, 1, 2], current_energy := 40,
      best_route := [0, 1, 2], best_energy := 40, tunneling := false },
    { step := 50, current_route := [0, 2, 1], current_energy := 38,
      best_route := [0, 2, 1], best_energy := 38, tunneling := true },
    { step := 100, current_route := [0, 2, 1], current_energy := 38,
      best_route := [0, 2, 1], best_energy := 38, tunneling := false } ]

/-- A concrete well-formed service response with three frames. -/
def sampleResponse : OptimizationResponse :=
  { summary := { problem_type := "tsp", total_nodes := 3, parameters_used := sampleParams },
    iterations := sampleIterations,
    final_result := { best_route := [0, 2, 1], best_energy := 38,
                      total_iterations := 100, tunneling_events := 1 },
    explanation := "sample run" }

/-- A session state right after a successful optimize request: result present,
cursor at frame 0, auto-playing. -/
def sampleReadyState : AppState :=
  { nodes := sampleNodes, params := sampleParams, result := some sampleResponse,
    isOptimizing := false, playbackIndex := 0, isPlaying := true, error := none,
    scenario := ScenarioType.random, startNodeId := 0, executionTime := 100 }

/-- A session state displaying a finished playback of `sampleResponse`. -/
def sampleDisplayState : AppState :=
  { sampleReadyState with playbackIndex := 2, isPlaying := false }

/-- A parseable service response whose iterations array is empty. -/
def emptyIterResponse : OptimizationResponse :=
  { summary := { problem_type := "tsp", total_nodes := 3, parameters_used := sampleParams },
    iterations := [],
    final_result := { best_route := [], best_energy := 0,
                      total_iterations := 0, tunneling_events := 0 },
    explanation := "degenerate run" }

/-- Two nodes with ids 0 and 1 at unit distance; id 5 is unresolvable. -/
def cxNodes : List Node :=
  [ { id := 0, x := 0, y := 0 },
    { id := 1, x := 1, y := 0 } ]

/-! ## Theorems -/

/-- Claim C8: with the API key absent from the environment, `runOptimization`
produces an error and the external collaborator is invoked zero times,
whatever the service would have replied. -/
theorem claim8_missing_key_zero_calls (reply : ServiceReply) :
    runOptimization none reply =
      (Except.error "API Key is missing. Please set REACT_APP_GEMINI_API_KEY.", 0) := rfl

/-- Claim C2, counterexample: a parseable response whose iterations array is
empty is NOT surfaced as an error — the call resolves successfully with the
empty-iteration result, contradicting the claim. -/
theorem claim2_counterexample :
    (runOptimization (some "key") (ServiceReply.parsed emptyIterResponse)).1 =
        Except.ok emptyIterResponse ∧
      emptyIterResponse.iterations = [] :=
  ⟨rfl, rfl⟩

/-- Claim C2, amended: `runOptimization` performs no validation of the parsed
payload — whenever the service returns parseable JSON, the call resolves
successfully with exactly that response (even when its iterations array is
empty); only a missing credential, a thrown service call, and missing or
unparseable response text surface as errors. -/
theorem claim2_parsed_response_accepted_unvalidated (apiKey : String)
    (r : OptimizationResponse) :
    runOptimization (some apiKey) (ServiceReply.parsed r) = (Except.ok r, 1) := rfl

/-- Claim C1, counterexample: starting from a state that displays a finished
result (cursor 2), an optimize request that ends in an error leaves the state
with NO result and cursor -1 — the previously displayed result is not
"still present unchanged", because the request start already cleared it. -/
theorem claim1_counterexample :
    sampleDisplayState.result = some sampleResponse ∧
      sampleDisplayState.playbackIndex = 2 ∧
      (optimizeFailure (optimizeStart sampleDisplayState) "Service unavailable").result ≠
        sampleDisplayState.result ∧
      (optimizeFailure (optimizeStart sampleDisplayState) "Service unavailable").playbackIndex ≠
        sampleDisplayState.playbackIndex := by
  refine ⟨rfl, rfl, ?_, ?_⟩ <;> decide

/-- Claim C1, amended: the error branch of an optimize request is terminal for
that request only in the sense that it records the error and clears the
in-flight flag while touching nothing else — the result and cursor keep
exactly the values the request start gave them (cleared: `none` and -1),
because every new optimize request discards the previously displayed result
when it starts, not when it fails. -/
theorem claim1_error_touches_only_flag_and_error (st : AppState) (msg : String) :
    (optimizeFailure st msg).result = st.result ∧
      (optimizeFailure st msg).playbackIndex = st.playbackIndex ∧
      (optimizeFailure st msg).isPlaying = st.isPlaying ∧
      (optimizeFailure st msg).nodes = st.nodes ∧
      (optimizeFailure st msg).error = some msg ∧
      (optimizeFailure st msg).isOptimizing = false ∧
      (optimizeFailure (optimizeStart st) msg).result = none ∧
      (optimizeFailure (optimizeStart st) msg).playbackIndex = -1 :=
  ⟨rfl, rfl, rfl, rfl, rfl, rfl, rfl, rfl⟩

/-- Claim C10: on optimize success the playback cursor is unconditionally set
to 0, and the Metrics frame access at that cursor fails (is `none`) exactly
when the accepted result's iterations array is empty — so the access is in
bounds only under the precondition that the array is non-empty. -/
theorem claim10_cursor_zero_unguarded_frame (st : AppState)
    (r : OptimizationResponse) (elapsed : ℚ) :
    (optimizeSuccess st r elapsed).playbackIndex = 0 ∧
      (metricsCurrentFrame r (optimizeSuccess st r elapsed).playbackIndex = none ↔
        r.iterations = []) := by
  refine ⟨rfl, ?_⟩
  show metricsCurrentFrame r 0 = none ↔ r.iterations = []
  unfold metricsCurrentFrame
  cases r.iterations <;> simp

/-- Claim C5: with a result present and the cursor at the last index
(Finished), the play toggle restarts the cursor at 0 and sets playing to
true — an explicit relaunch, whatever the play flag was before. -/
theorem claim5_play_at_end_restarts (st : AppState) (r : OptimizationResponse)
    (hres : st.result = some r) (hne : r.iterations ≠ [])
    (hidx : st.playbackIndex = (r.iterations.length : Int) - 1) :
    (playToggle st).playbackIndex = 0 ∧ (playToggle st).isPlaying = true := by
  unfold playToggle
  rw [hres]
  dsimp only
  rw [if_pos hidx.ge]
  exact ⟨rfl, rfl⟩

/-- Claim C5, witness at the concrete finished sample state. -/
theorem claim5_witness :
    (playToggle sampleDisplayState).playbackIndex = 0 ∧
      (playToggle sampleDisplayState).isPlaying = true :=
  claim5_play_at_end_restarts sampleDisplayState sampleResponse rfl
    (by decide) (by decide)

/-- Claim C6: after a scenario switch — for every scenario, node count and
random draw — the node list's ids are exactly 0..N-1 in order, the start node
id is reset to 0, and the prior result, playback cursor and play flag are
cleared. -/
theorem claim6_scenario_switch_resets (st : AppState) (nodeCount : Nat)
    (coords jitter : Nat → ℚ × ℚ) :
    ((scenarioSwitch st nodeCount coords jitter).nodes.map Node.id =
        (List.range (scenarioSwitch st nodeCount coords jitter).nodes.length).map
          (fun (i : Nat) => (i : Int))) ∧
      (scenarioSwitch st nodeCount coords jitter).startNodeId = 0 ∧
      (scenarioSwitch st nodeCount coords jitter).result = none ∧
      (scenarioSwitch st nodeCount coords jitter).playbackIndex = -1 ∧
      (scenarioSwitch st nodeCount coords jitter).isPlaying = false := by
  refine ⟨?_, rfl, rfl, rfl, rfl⟩
  show (scenarioNodes st.scenario nodeCount coords jitter).map Node.id =
    (List.range (scenarioNodes st.scenario nodeCount coords jitter).length).map
      (fun (i : Nat) => (i : Int))
  cases st.scenario with
  | random => simp [scenarioNodes, generateNodes, List.map_map, Function.comp_def]
  | delivery => simp [scenarioNodes, deliveryNodes, List.map_map, Function.comp_def]
  | logistics => simp only [scenarioNodes]; decide
  | circuit => simp only [scenarioNodes]; decide
  | india => simp only [scenarioNodes]; decide

/-- A tick on a state whose cursor is strictly before the last frame advances
the cursor by one. -/
theorem tick_of_lt {st : AppState} {r : OptimizationResponse}
    (hres : st.result = some r)
    (hlt : st.playbackIndex < (r.iterations.length : Int) - 1) :
    tick st = { st with playbackIndex := st.playbackIndex + 1 } := by
  unfold tick
  rw [hres]
  dsimp only
  rw [if_neg (not_le.mpr hlt)]

/-- A tick on a state whose cursor is at (or past) the last frame only stops
playing; the cursor does not move. -/
theorem tick_of_ge {st : AppState} {r : OptimizationResponse}
    (hres : st.result = some r)
    (hge : st.playbackIndex ≥ (r.iterations.length : Int) - 1) :
    tick st = { st with isPlaying := false } := by
  unfold tick
  rw [hres]
  dsimp only
  rw [if_pos hge]

/-- Iterating the tick from cursor 0: after `k ≤ length - 1` ticks the result
is untouched and the cursor is exactly `k`. -/
theorem tick_iterate_playback (st : AppState) (r : OptimizationResponse)
    (hres : st.result = some r) (hidx : st.playbackIndex = 0) :
    ∀ k : Nat, k ≤ r.iterations.length - 1 →
      (tick^[k] st).result = some r ∧ (tick^[k] st).playbackIndex = (k : Int) := by
  intro k
  induction k with
  | zero =>
    intro _
    exact ⟨hres, by simpa using hidx⟩
  | succ n ih =>
    intro hk
    have hn := ih (Nat.le_of_succ_le hk)
    rw [Function.iterate_succ_apply']
    have hlt : (tick^[n] st).playbackIndex < (r.iterations.length : Int) - 1 := by
      rw [hn.2]
      omega
    rw [tick_of_lt hn.1 hlt]
    refine ⟨hn.1, ?_⟩
    show (tick^[n] st).playbackIndex + 1 = ((n + 1 : Nat) : Int)
    rw [hn.2]
    push_cast
    ring

/-- Once the cursor sits at the last frame, any number of further ticks leaves
the result and the cursor unchanged. -/
theorem tick_iterate_at_end (st : AppState) (r : OptimizationResponse)
    (hres : st.result = some r)
    (hend : st.playbackIndex = (r.iterations.length : Int) - 1) :
    ∀ m : Nat, (tick^[m] st).result = some r ∧
      (tick^[m] st).playbackIndex = (r.iterations.length : Int) - 1 := by
  intro m
  induction m with
  | zero => exact ⟨hres, hend⟩
  | succ n ih =>
    rw [Function.iterate_succ_apply']
    rw [tick_of_ge ih.1 ih.2.ge]
    exact ⟨ih.1, ih.2⟩

/-- Claim C4: starting from the Ready state (result present, cursor 0,
playing), after exactly `length - 1` ticks the cursor is at the last index,
and any further tick from there never advances the cursor past the last
index. -/
theorem claim4_playback_reaches_finished_and_stops (st : AppState)
    (r : OptimizationResponse) (hres : st.result = some r)
    (hne : r.iterations ≠ []) (hidx : st.playbackIndex = 0)
    (hplay : st.isPlaying = true) :
    (tick^[r.iterations.length - 1] st).playbackIndex =
        (r.iterations.length : Int) - 1 ∧
      ∀ m : Nat, (tick^[m] (tick^[r.iterations.length - 1] st)).playbackIndex =
        (r.iterations.length : Int) - 1 := by
  have hlen : 1 ≤ r.iterations.length := List.length_pos.mpr hne
  obtain ⟨hres', hidx'⟩ :=
    tick_iterate_playback st r hres hidx (r.iterations.length - 1) le_rfl
  have hend : (tick^[r.iterations.length - 1] st).playbackIndex =
      (r.iterations.length : Int) - 1 := by
    rw [hidx']
    omega
  exact ⟨hend, fun m =>
    (tick_iterate_at_end (tick^[r.iterations.length - 1] st) r hres' hend m).2⟩

/-- Claim C4, witness at a concrete three-frame playback: two ticks reach the
last index and a third tick does not move the cursor. -/
theorem claim4_witness :
    (tick^[2] sampleReadyState).playbackIndex = 2 ∧
      (tick^[1] (tick^[2] sampleReadyState)).playbackIndex = 2 := by
  obtain ⟨h1, h2⟩ := claim4_playback_reaches_finished_and_stops
    sampleReadyState sampleResponse rfl (by decide) rfl rfl
  exact ⟨h1, h2 1⟩

/-- Along a list pairwise non-decreasing under `f`, every member's value is at
most the last element's value. -/
theorem mem_le_getLast {α : Type} (f : α → Int) :
    ∀ (l : List α), l.Pairwise (fun a b => f a ≤ f b) →
      ∀ x ∈ l, ∀ (h : l ≠ []), f x ≤ f (l.getLast h) := by
  intro l
  induction l with
  | nil => intro _ x hx; cases hx
  | cons a t ih =>
    intro hp x hx h
    cases t with
    | nil =>
      rcases List.mem_singleton.mp hx with rfl
      exact le_of_eq rfl
    | cons b t' =>
      have hbt : (b :: t') ≠ [] := List.cons_ne_nil b t'
      have hlast : (a :: b :: t').getLast h = (b :: t').getLast hbt :=
        List.getLast_cons hbt
      rcases List.mem_cons.mp hx with rfl | hx'
      · rw [hlast]
        exact (List.pairwise_cons.mp hp).1 _ (List.getLast_mem hbt)
      · rw [hlast]
        exact ih (List.pairwise_cons.mp hp).2 x hx' hbt

/-- Claim C7: for a non-empty iteration array with non-decreasing step
values, the Metrics convergence step is defined and never exceeds the step
value of the last frame. -/
theorem claim7_convergence_le_last_step (data : OptimizationResponse)
    (hne : data.iterations ≠ [])
    (hmono : data.iterations.Pairwise (fun a b => a.step ≤ b.step)) :
    ∃ c, metricsConvergenceStep data = some c ∧
      c ≤ (data.iterations.getLast hne).step := by
  cases hfind : data.iterations.find?
      (fun it => |it.best_energy - data.final_result.best_energy| < (1 / 1000 : ℚ)) with
  | none =>
    refine ⟨(data.iterations.getLast hne).step, ?_, le_rfl⟩
    unfold metricsConvergenceStep
    rw [hfind, List.getLast?_eq_getLast_of_ne_nil hne]
    rfl
  | some it =>
    refine ⟨it.step, ?_, ?_⟩
    · unfold metricsConvergenceStep
      rw [hfind]
    · exact mem_le_getLast IterationData.step data.iterations hmono it
        (List.mem_of_find?_eq_some hfind) hne

/-- Claim C7, witness at the concrete three-frame sample response. -/
theorem claim7_witness :
    ∃ c, metricsConvergenceStep sampleResponse = some c ∧
      c ≤ (sampleResponse.iterations.getLast (by decide)).step :=
  claim7_convergence_le_last_step sampleResponse (by decide) (by decide)

/-- Sum of a mapped list written as an indexed sum over its length. -/
theorem sum_map_eq_sum_range {α : Type} {M : Type} [AddCommMonoid M]
    (f : α → M) (d : α) :
    ∀ l : List α, (l.map f).sum = ∑ i ∈ Finset.range l.length, f (l.getD i d) := by
  intro l
  induction l with
  | nil => simp
  | cons a t ih =>
    rw [List.map_cons, List.sum_cons, ih, List.length_cons,
      Finset.sum_range_succ']
    simp only [List.getD_cons_succ, List.getD_cons_zero]
    exact add_comm _ _

/-- Element `i` of the closed-tour pair list is the route entry at `i`
together with its cyclic successor. -/
theorem zip_rotate_getD (r : List Int) (i : Nat) (hi : i < r.length) :
    (r.zip (r.rotate 1)).getD i (0, 0) =
      (r.getD i 0, r.getD ((i + 1) % r.length) 0) := by
  have hi' : i < (r.zip (r.rotate 1)).length := by
    simpa using hi
  rw [List.getD_eq_getElem _ _ hi', List.getElem_zip]
  have hn : 0 < r.length := by omega
  congr 1
  · exact (List.getD_eq_getElem r 0 hi).symm
  · rw [List.getElem_rotate]
    exact (List.getD_eq_getElem r 0 (Nat.mod_lt _ hn)).symm

/-- The indexed reduce of `calculateRouteDistance` coincides with the
closed-tour pair-list sum of the amended contract. -/
theorem calculateRouteDistance_eq_amended (nodes : List Node)
    (routeIds : List Int) :
    calculateRouteDistance nodes routeIds = routeDistanceAmended nodes routeIds := by
  unfold calculateRouteDistance routeDistanceAmended
  by_cases hg : routeIds.length < 2 ∨ nodes = []
  · rw [if_pos hg, if_pos hg]
  · rw [if_neg hg, if_neg hg]
    rw [sum_map_eq_sum_range (pairLegDistance nodes) (0, 0)]
    have hlen : (routeIds.zip (routeIds.rotate 1)).length = routeIds.length := by
      simp
    rw [hlen]
    refine Finset.sum_congr rfl ?_
    intro i hi
    rw [zip_rotate_getD routeIds i (Finset.mem_range.mp hi)]
    rfl

/-- Claim C3, counterexample: with nodes 0 and 1 at unit distance and the
route `[0, 1, 5]`, the lookup of id 5 fails, yet `calculateRouteDistance`
does not return 0 — the resolvable leg 0→1 still contributes its distance 1. -/
theorem claim3_counterexample :
    (cxNodes.find? (fun n => n.id == (5 : Int))).isNone = true ∧
      calculateRouteDistance cxNodes [0, 1, 5] ≠ 0 := by
  constructor
  · decide
  · have e0 : legDistance cxNodes [0, 1, 5] 0 =
        calculateDistance { id := 0, x := 0, y := 0 } { id := 1, x := 1, y := 0 } := rfl
    have e1 : legDistance cxNodes [0, 1, 5] 1 = 0 := rfl
    have e2 : legDistance cxNodes [0, 1, 5] 2 = 0 := rfl
    have hd : calculateDistance { id := 0, x := 0, y := 0 }
        { id := 1, x := 1, y := 0 } = 1 := by
      show Real.sqrt ((((0 : ℚ) - 1) ^ 2 + ((0 : ℚ) - 0) ^ 2 : ℚ) : ℝ) = 1
      norm_num [Real.sqrt_one]
    have htot : calculateRouteDistance cxNodes [0, 1, 5] = 1 := by
      unfold calculateRouteDistance
      rw [if_neg (by decide)]
      rw [show ([0, 1, 5] : List Int).length = 3 from rfl]
      rw [Finset.sum_range_succ, Finset.sum_range_succ, Finset.sum_range_succ,
        Finset.sum_range_zero]
      rw [e0, e1, e2, hd]
      ring
    rw [htot]
    norm_num

/-- Claim C3, amended: `calculateRouteDistance` returns 0 when the route has
fewer than two entries or the node set is empty, and otherwise sums the
closed-tour legs (consecutive pairs, wrapping last to first) — a leg whose
endpoint lookup fails contributes 0 and is silently skipped, while the
remaining legs still contribute (the whole distance is NOT forced to 0 by a
single failed lookup). -/
theorem claim3_routeDistance_skips_unresolved_legs (nodes : List Node)
    (routeIds : List Int) :
    calculateRouteDistance nodes routeIds = routeDistanceAmended nodes routeIds :=
  calculateRouteDistance_eq_amended nodes routeIds

/-- Shifting the index by one modulo `n` permutes an indexed sum over
`range n`. -/
theorem sum_range_mod_one {M : Type} [AddCommMonoid M] (f : Nat → M) (n : Nat) :
    ∑ i ∈ Finset.range n, f ((i + 1) % n) = ∑ i ∈ Finset.range n, f i := by
  cases n with
  | zero => simp
  | succ m =>
    rw [Finset.sum_range_succ, Finset.sum_range_succ' f m]
    have h2 : ∀ i ∈ Finset.range m, f ((i + 1) % (m + 1)) = f (i + 1) := by
      intro i hi
      have hi' : i < m := Finset.mem_range.mp hi
      rw [Nat.mod_eq_of_lt (by omega)]
    rw [Finset.sum_congr rfl h2, Nat.mod_self]

/-- Shifting the index by any `k` modulo `n` permutes an indexed sum over
`range n`. -/
theorem sum_range_mod_shift {M : Type} [AddCommMonoid M] (f : Nat → M)
    (n k : Nat) :
    ∑ i ∈ Finset.range n, f ((i + k) % n) = ∑ i ∈ Finset.range n, f i := by
  induction k with
  | zero =>
    refine Finset.sum_congr rfl ?_
    intro i hi
    rw [Nat.add_zero, Nat.mod_eq_of_lt (Finset.mem_range.mp hi)]
  | succ j ih =>
    have h : ∀ i ∈ Finset.range n,
        f ((i + (j + 1)) % n) = (fun t => f ((t + j) % n)) ((i + 1) % n) := by
      intro i _
      show f ((i + (j + 1)) % n) = f (((i + 1) % n + j) % n)
      rw [Nat.mod_add_mod]
      have harg : i + 1 + j = i + (j + 1) := by omega
      rw [harg]
    calc ∑ i ∈ Finset.range n, f ((i + (j + 1)) % n)
        = ∑ i ∈ Finset.range n, (fun t => f ((t + j) % n)) ((i + 1) % n) :=
          Finset.sum_congr rfl h
      _ = ∑ i ∈ Finset.range n, (fun t => f ((t + j) % n)) i :=
          sum_range_mod_one (fun t => f ((t + j) % n)) n
      _ = ∑ i ∈ Finset.range n, f i := ih

/-- Leg `i` of a rotated route is leg `(i + k) % length` of the original
route. -/
theorem legDistance_rotate (nodes : List Node) (r : List Int) (k i : Nat)
    (hi : i < r.length) :
    legDistance nodes (r.rotate k) i = legDistance nodes r ((i + k) % r.length) := by
  have hn : 0 < r.length := by omega
  have e1 : (r.rotate k).getD i 0 = r.getD ((i + k) % r.length) 0 := by
    rw [List.getD_eq_getD_get?, List.getD_eq_getD_get?, List.get?_rotate hi]
  have hm : (i + 1) % r.length < r.length := Nat.mod_lt _ hn
  have hidx : ((i + 1) % r.length + k) % r.length =
      ((i + k) % r.length + 1) % r.length := by
    rw [Nat.mod_add_mod, Nat.mod_add_mod]
    congr 1
    omega
  have e2 : (r.rotate k).getD ((i + 1) % (r.rotate k).length) 0 =
      r.getD (((i + k) % r.length + 1) % r.length) 0 := by
    rw [List.length_rotate, List.getD_eq_getD_get?, List.get?_rotate hm, hidx,
      ← List.getD_eq_getD_get?]
  unfold legDistance
  simp only [e1, e2]

/-- Claim C9: when every id of the route resolves in the node set,
`calculateRouteDistance` is invariant under any rotation of the route (and
indeed the proof needs no resolvability at all: rotation permutes the
closed-tour legs). -/
theorem claim9_routeDistance_rotation_invariant (nodes : List Node)
    (routeIds : List Int) (k : Nat)
    (hall : ∀ id ∈ routeIds, (nodes.find? (fun n => n.id == id)).isSome = true) :
    calculateRouteDistance nodes (routeIds.rotate k) =
      calculateRouteDistance nodes routeIds := by
  unfold calculateRouteDistance
  rw [List.length_rotate]
  by_cases hg : routeIds.length < 2 ∨ nodes = []
  · rw [if_pos hg, if_pos hg]
  · rw [if_neg hg, if_neg hg]
    calc ∑ i ∈ Finset.range routeIds.length, legDistance nodes (routeIds.rotate k) i
        = ∑ i ∈ Finset.range routeIds.length,
            legDistance nodes routeIds ((i + k) % routeIds.length) :=
          Finset.sum_congr rfl fun i hi =>
            legDistance_rotate nodes routeIds k i (Finset.mem_range.mp hi)
      _ = ∑ i ∈ Finset.range routeIds.length, legDistance nodes routeIds i :=
          sum_range_mod_shift (legDistance nodes routeIds) routeIds.length k

/-- Claim C9, witness: rotating the concrete route `[0, 1, 2]` by one over the
three sample nodes leaves the route distance unchanged. -/
theorem claim9_witness :
    (∀ id ∈ ([0, 1, 2] : List Int),
        (sampleNodes.find? (fun n => n.id == id)).isSome = true) ∧
      calculateRouteDistance sampleNodes (([0, 1, 2] : List Int).rotate 1) =
        calculateRouteDistance sampleNodes [0, 1, 2] :=
  ⟨by decide,
    claim9_routeDistance_rotation_invariant sampleNodes [0, 1, 2] 1 (by decide)⟩

end QIOE
